import Mathlib

/-!
Shallow embedding of the rust-dataframe logical-plan core:
the scalar operation builder (src/operation.rs) and the data-source
layer (src/io/datasource.rs), together with theorems settling the
specification claims about them.
-/

namespace RustDataframe

/-- Modelled from the spec: the closed enumeration of primitive data types
(crate expression module, not under src); mirrors the arrow DataType names
used by the source (Int64, Int32 appear in the unit test). -/
inductive DataType where
  | Boolean
  | Int8
  | Int16
  | Int32
  | Int64
  | UInt8
  | UInt16
  | UInt32
  | UInt64
  | Float32
  | Float64
  | Utf8
  | Date32
  | Date64
deriving DecidableEq, Repr

/-- Modelled from the spec: ColumnType is a tagged variant, Scalar or
Array over an inner DataType (crate expression module, not under src). -/
inductive ColumnType where
  | Scalar (t : DataType)
  | Array (t : DataType)
deriving DecidableEq, Repr

/-- Modelled from the spec: a Column is a name together with a column
type (crate expression module, not under src). -/
structure Column where
  name : String
  column_type : ColumnType
deriving DecidableEq, Repr

instance : Inhabited Column := ⟨⟨"", ColumnType.Scalar DataType.Int64⟩⟩

/-- Modelled from the spec: scalar expression tags used by the operation
builder (crate expression module, not under src). -/
inductive ScalarExpression where
  | Add
  | Subtract
deriving DecidableEq, Repr

/-- Modelled from the spec: expression tags of a graph node (crate
expression module, not under src). -/
inductive Expression where
  | Scalar (e : ScalarExpression)
  | Cast
deriving DecidableEq, Repr

/-- Modelled from the spec: an Operation graph node with a name, ordered
inputs, one output column and an expression tag (crate expression module,
not under src). -/
structure Operation where
  name : String
  inputs : List Column
  output : Column
  expression : Expression
deriving DecidableEq, Repr

instance : Inhabited Operation :=
  ⟨⟨"", [], default, Expression.Cast⟩⟩

/-- Errors surfaced by the operation builder; only the two arrow error
variants actually constructed in src/operation.rs are modelled. -/
inductive ArrowError where
  | ComputeError (msg : String)
  | InvalidArgumentError (msg : String)
deriving DecidableEq, Repr

/-- Modelled from the spec: the From conversion of a DataType into a
ColumnType (crate expression module, not under src). The unit test in
src/operation.rs pins the converted type as Scalar of the same DataType. -/
def dataTypeIntoColumnType (t : DataType) : ColumnType :=
  ColumnType.Scalar t

/-- Stable identifier of the Add operation (src/operation.rs). -/
def AddOperation.opName : String := "add"

/-- Stable identifier of the Cast operation (src/operation.rs). -/
def CastOperation.opName : String := "cast"

/-- Stable identifier of the Subtract operation (src/operation.rs). -/
def SubtractOperation.opName : String := "subtract"

/-- Embedding of CastOperation::transform (src/operation.rs). Arity is
checked first, then the presence of the target type, then the shape of
the input column. -/
def CastOperation.transform (inputs : List Column) (name : Option String)
    (to_type : Option DataType) : Except ArrowError (List Operation) :=
  match inputs with
  | [a] =>
    match to_type with
    | none =>
        Except.error (ArrowError.InvalidArgumentError
          "Cast requires a target output datatype")
    | some t =>
      match a.column_type with
      | ColumnType.Array _ =>
          Except.error (ArrowError.ComputeError
            "Cast operation is currently only supported on scalar columns")
      | ColumnType.Scalar _ =>
          Except.ok [{ name := CastOperation.opName,
                       inputs := [a],
                       output := { name := name.getD
                                     (CastOperation.opName ++ "(" ++ a.name
                                       ++ " as datatype)"),
                                   column_type := ColumnType.Scalar t },
                       expression := Expression.Cast }]
  | _ =>
      Except.error (ArrowError.ComputeError "Cast operation expects 1 input")

/-- Embedding of AddOperation::transform (src/operation.rs). The `to_type`
argument is accepted but never used, exactly as in the source. -/
def AddOperation.transform (inputs : List Column) (name : Option String)
    (to_type : Option DataType) : Except ArrowError (List Operation) :=
  match inputs with
  | [a, b] =>
    match a.column_type, b.column_type with
    | ColumnType.Scalar a_type, ColumnType.Scalar b_type =>
      if a_type ≠ b_type then
        match CastOperation.transform [b] (some b.name) (some a_type) with
        | Except.error e => Except.error e
        | Except.ok cast_ops =>
          let cast_op := cast_ops.headD default
          Except.ok
            [cast_op,
             { name := AddOperation.opName,
               inputs := [a, cast_op.output],
               output := { name := name.getD
                             (AddOperation.opName ++ "(" ++ a.name ++ ", "
                               ++ b.name ++ ")"),
                           column_type := dataTypeIntoColumnType a_type },
               expression := Expression.Scalar ScalarExpression.Add }]
      else
        Except.ok
          [{ name := AddOperation.opName,
             inputs := [a, b],
             output := { name := name.getD
                           (AddOperation.opName ++ "(" ++ a.name ++ ", "
                             ++ b.name ++ ")"),
                         column_type := dataTypeIntoColumnType a_type },
             expression := Expression.Scalar ScalarExpression.Add }]
    | _, _ =>
        Except.error (ArrowError.ComputeError
          "Add operation only works on scalar columns")
  | _ =>
      Except.error (ArrowError.ComputeError "Add operation expects 2 inputs")

/-- Embedding of SubtractOperation::transform (src/operation.rs). The
mismatched-type branch tags its arithmetic node with ScalarExpression.Add,
exactly as the source does. -/
def SubtractOperation.transform (inputs : List Column) (name : Option String)
    (to_type : Option DataType) : Except ArrowError (List Operation) :=
  match inputs with
  | [a, b] =>
    match a.column_type, b.column_type with
    | ColumnType.Scalar a_type, ColumnType.Scalar b_type =>
      if a_type ≠ b_type then
        match CastOperation.transform [b] (some b.name) (some a_type) with
        | Except.error e => Except.error e
        | Except.ok cast_ops =>
          let cast_op := cast_ops.headD default
          Except.ok
            [cast_op,
             { name := SubtractOperation.opName,
               inputs := [a, cast_op.output],
               output := { name := name.getD
                             (SubtractOperation.opName ++ "(" ++ a.name
                               ++ ", " ++ b.name ++ ")"),
                           column_type := dataTypeIntoColumnType a_type },
               expression := Expression.Scalar ScalarExpression.Add }]
      else
        Except.ok
          [{ name := SubtractOperation.opName,
             inputs := [a, b],
             output := { name := name.getD
                           (SubtractOperation.opName ++ "(" ++ a.name
                             ++ ", " ++ b.name ++ ")"),
                         column_type := ColumnType.Scalar a_type },
             expression := Expression.Scalar ScalarExpression.Subtract }]
    | _, _ =>
        Except.error (ArrowError.ComputeError
          "Subtract operation only works on scalar columns")
  | _ =>
      Except.error (ArrowError.ComputeError
        "Subtract operation expects 2 inputs")

/-- Modelled from the spec: the error type of the dataframe crate (crate
error module, not under src); its internal structure is irrelevant to the
claims, only its identity as the Err payload matters. -/
structure DataFrameError where
  msg : String
deriving DecidableEq, Repr

/-- Outcome of running a fallible Rust function: a returned Ok value, a
returned Err value, or a panic (unimplemented! / todo! never return). -/
inductive EvalResult (ε α : Type) where
  | ok (a : α)
  | err (e : ε)
  | panic (msg : String)
deriving DecidableEq, Repr

/-- Whether the evaluation returned Ok. -/
def EvalResult.isOk {ε α : Type} : EvalResult ε α → Bool
  | EvalResult.ok _ => true
  | _ => false

/-- Whether the evaluation returned Err. -/
def EvalResult.isErr {ε α : Type} : EvalResult ε α → Bool
  | EvalResult.err _ => true
  | _ => false

/-- Whether the evaluation panicked instead of returning. -/
def EvalResult.isPanic {ε α : Type} : EvalResult ε α → Bool
  | EvalResult.panic _ => true
  | _ => false

/-- Modelled from the spec: the SQL dialect tag (crate expression module,
not under src); a closed variant over Postgres, MsSql, MySql. -/
inductive SqlDatabase where
  | Postgres
  | MsSql
  | MySql
deriving DecidableEq, Repr

/-- Modelled from the spec: database source options, a dialect tag plus a
connection string (crate expression module, not under src). -/
structure SqlOptions where
  db : SqlDatabase
  connection_string : String
deriving DecidableEq, Repr

/-- Modelled from the spec: delimited-file reading options (crate
expression module, not under src): header presence, inferred-schema
sample size, batch size, delimiter byte, optional column-index
projection; field names follow their uses in src/io/datasource.rs. -/
structure CsvReadOptions where
  has_headers : Bool
  max_records : Option Nat
  batch_size : Nat
  delimiter : Option Nat
  projection : Option (List Nat)
deriving DecidableEq, Repr

/-- Modelled from the spec: the tagged variant over supported backends
(crate expression module, not under src). -/
inductive DataSourceType where
  | Csv (path : String) (options : CsvReadOptions)
  | Json (path : String)
  | Parquet (path : String)
  | Arrow (path : String)
  | Sql (table : String) (options : SqlOptions)
deriving DecidableEq, Repr

/-- Modelled from the spec: a Dataset is a name with an ordered column
list (crate expression module, not under src). -/
structure Dataset where
  name : String
  columns : List Column
deriving DecidableEq, Repr

/-- Modelled from the spec: a Reader carries the source descriptor it was
built from (crate expression module, not under src); get_dataset in
src/io/datasource.rs reads only its source field. -/
structure Reader where
  source : DataSourceType
deriving DecidableEq, Repr

/-- External backend readers consumed by get_dataset (arrow csv reader,
parquet reader, arrow ipc reader, postgres catalog query). Each is an
out-of-repo library; it is modelled as an oracle producing the engine
columns of the schema it discovers, or a backend error. The Field-to-
Column mapping that get_dataset composes onto the raw schema is folded
into the oracle. -/
structure ExternalReaders where
  csvSchema : String → CsvReadOptions → Except DataFrameError (List Column)
  parquetSchema : String → Except DataFrameError (List Column)
  arrowSchema : String → Except DataFrameError (List Column)
  postgresTableSchema : String → String → Except DataFrameError (List Column)

/-- Embedding of DataSourceEval::get_dataset for Reader
(src/io/datasource.rs). File-backed and Postgres branches defer to the
external reader oracles; the Json, MsSql and MySql branches hit
unimplemented! in the source, which panics rather than returning. -/
def Reader.get_dataset (env : ExternalReaders) (r : Reader) :
    EvalResult DataFrameError Dataset :=
  match r.source with
  | DataSourceType.Csv path options =>
    match env.csvSchema path options with
    | Except.error e => EvalResult.err e
    | Except.ok cols => EvalResult.ok ⟨"csv_source", cols⟩
  | DataSourceType.Json _ =>
      EvalResult.panic "JSON data source evaluation not yet implemented"
  | DataSourceType.Parquet path =>
    match env.parquetSchema path with
    | Except.error e => EvalResult.err e
    | Except.ok cols => EvalResult.ok ⟨"parquet_file_source", cols⟩
  | DataSourceType.Arrow path =>
    match env.arrowSchema path with
    | Except.error e => EvalResult.err e
    | Except.ok cols => EvalResult.ok ⟨"ipc_file_source", cols⟩
  | DataSourceType.Sql table options =>
    match options.db with
    | SqlDatabase.Postgres =>
      match env.postgresTableSchema options.connection_string table with
      | Except.error e => EvalResult.err e
      | Except.ok cols => EvalResult.ok ⟨table, cols⟩
    | SqlDatabase.MsSql =>
        EvalResult.panic "MSSQL data source not yet implemented"
    | SqlDatabase.MySql =>
        EvalResult.panic "MySQL data source not yet implemented"

/-- Modelled from the spec: the pushdown predicate type (crate expression
module, not under src); its structure is irrelevant to the claims. -/
inductive BooleanFilter where
  | mk
deriving DecidableEq, Repr

/-- Embedding of CsvSourceOptions (src/io/datasource.rs); SchemaRef is
modelled as the list of schema columns. -/
structure CsvSourceOptions where
  infer_schema : Bool
  read_schema : Option (List Column)
  has_header : Bool
  delimiter : Option Nat
  projection : Option (List Nat)

/-- Embedding of the CsvDataSource struct (src/io/datasource.rs); the
generic reader handle field holds an external open reader and carries no
information used by any modelled method, so it is not represented. -/
structure CsvDataSource where
  path : String
  options : CsvSourceOptions
  projection : List String
  limit : Option Nat
  read_schema : List Column
  projected_schema : List Column

/-- CsvDataSource::supports_projection (src/io/datasource.rs). -/
def CsvDataSource.supports_projection (s : CsvDataSource) : Bool := true

/-- CsvDataSource::supports_filtering (src/io/datasource.rs). -/
def CsvDataSource.supports_filtering (s : CsvDataSource) : Bool := false

/-- CsvDataSource::supports_sorting (src/io/datasource.rs). -/
def CsvDataSource.supports_sorting (s : CsvDataSource) : Bool := false

/-- CsvDataSource::supports_limit (src/io/datasource.rs). -/
def CsvDataSource.supports_limit (s : CsvDataSource) : Bool := true

/-- CsvDataSource::filter (src/io/datasource.rs): the body is todo!(),
which panics with the message below; on success it would return the
mutated source and unit. -/
def CsvDataSource.filter (s : CsvDataSource) (f : BooleanFilter) :
    EvalResult DataFrameError (CsvDataSource × Unit) :=
  EvalResult.panic "not yet implemented"

/-- Whether a column type is the Array variant. -/
def ColumnType.isArray : ColumnType → Bool
  | ColumnType.Array _ => true
  | ColumnType.Scalar _ => false

/-- No external readers succeed: every oracle reports a backend error.
Used to evaluate get_dataset branches that never consult an oracle. -/
def noReaders : ExternalReaders :=
  ⟨fun _ _ => Except.error ⟨"no file system"⟩,
   fun _ => Except.error ⟨"no file system"⟩,
   fun _ => Except.error ⟨"no file system"⟩,
   fun _ _ => Except.error ⟨"no database"⟩⟩

/-- C3: for every pair of Scalar input columns with equal inner data
types, AddOperation.transform and SubtractOperation.transform return Ok
with exactly one Operation node whose output column_type is Scalar of
the shared inner data type. -/
theorem add_subtract_equal_types_single_node
    (a b : Column) (nm : Option String) (tt : Option DataType) (t : DataType)
    (ha : a.column_type = ColumnType.Scalar t)
    (hb : b.column_type = ColumnType.Scalar t) :
    AddOperation.transform [a, b] nm tt =
      Except.ok
        [⟨AddOperation.opName, [a, b],
          ⟨nm.getD (AddOperation.opName ++ "(" ++ a.name ++ ", "
             ++ b.name ++ ")"),
           ColumnType.Scalar t⟩,
          Expression.Scalar ScalarExpression.Add⟩] ∧
    SubtractOperation.transform [a, b] nm tt =
      Except.ok
        [⟨SubtractOperation.opName, [a, b],
          ⟨nm.getD (SubtractOperation.opName ++ "(" ++ a.name ++ ", "
             ++ b.name ++ ")"),
           ColumnType.Scalar t⟩,
          Expression.Scalar ScalarExpression.Subtract⟩] := by
  obtain ⟨an, ac⟩ := a
  obtain ⟨bn, bc⟩ := b
  change ac = ColumnType.Scalar t at ha
  change bc = ColumnType.Scalar t at hb
  subst ha
  subst hb
  constructor
  · simp [AddOperation.transform, dataTypeIntoColumnType]
  · simp [SubtractOperation.transform]

/-- Witness for C3 at the concrete inputs a and b, both Scalar Int64. -/
theorem add_subtract_equal_types_single_node_witness :
    AddOperation.transform
      [⟨"a", ColumnType.Scalar DataType.Int64⟩,
       ⟨"b", ColumnType.Scalar DataType.Int64⟩] none none =
      Except.ok
        [⟨AddOperation.opName,
          [⟨"a", ColumnType.Scalar DataType.Int64⟩,
           ⟨"b", ColumnType.Scalar DataType.Int64⟩],
          ⟨(none : Option String).getD (AddOperation.opName ++ "(" ++ "a"
             ++ ", " ++ "b" ++ ")"),
           ColumnType.Scalar DataType.Int64⟩,
          Expression.Scalar ScalarExpression.Add⟩] ∧
    SubtractOperation.transform
      [⟨"a", ColumnType.Scalar DataType.Int64⟩,
       ⟨"b", ColumnType.Scalar DataType.Int64⟩] none none =
      Except.ok
        [⟨SubtractOperation.opName,
          [⟨"a", ColumnType.Scalar DataType.Int64⟩,
           ⟨"b", ColumnType.Scalar DataType.Int64⟩],
          ⟨(none : Option String).getD (SubtractOperation.opName ++ "("
             ++ "a" ++ ", " ++ "b" ++ ")"),
           ColumnType.Scalar DataType.Int64⟩,
          Expression.Scalar ScalarExpression.Subtract⟩] :=
  add_subtract_equal_types_single_node
    ⟨"a", ColumnType.Scalar DataType.Int64⟩
    ⟨"b", ColumnType.Scalar DataType.Int64⟩
    none none DataType.Int64 rfl rfl

/-- C1: for every pair of Scalar input columns with differing inner data
types, AddOperation.transform and SubtractOperation.transform return Ok
with exactly two nodes: first a Cast node whose input is the second
column and whose output has the first columns data type, then the
arithmetic node whose inputs are the first column unchanged and the cast
output, and whose own output column_type is Scalar of the first columns
data type. -/
theorem add_subtract_mismatched_types_two_nodes
    (a b : Column) (nm : Option String) (tt : Option DataType)
    (ta tb : DataType)
    (ha : a.column_type = ColumnType.Scalar ta)
    (hb : b.column_type = ColumnType.Scalar tb)
    (hne : ta ≠ tb) :
    ∃ mAdd mSub : Operation,
      AddOperation.transform [a, b] nm tt =
        Except.ok
          [⟨CastOperation.opName, [b], ⟨b.name, ColumnType.Scalar ta⟩,
            Expression.Cast⟩, mAdd] ∧
      SubtractOperation.transform [a, b] nm tt =
        Except.ok
          [⟨CastOperation.opName, [b], ⟨b.name, ColumnType.Scalar ta⟩,
            Expression.Cast⟩, mSub] ∧
      mAdd.inputs = [a, ⟨b.name, ColumnType.Scalar ta⟩] ∧
      mAdd.output.column_type = ColumnType.Scalar ta ∧
      mSub.inputs = [a, ⟨b.name, ColumnType.Scalar ta⟩] ∧
      mSub.output.column_type = ColumnType.Scalar ta := by
  obtain ⟨an, ac⟩ := a
  obtain ⟨bn, bc⟩ := b
  change ac = ColumnType.Scalar ta at ha
  change bc = ColumnType.Scalar tb at hb
  subst ha
  subst hb
  refine ⟨⟨AddOperation.opName,
           [⟨an, ColumnType.Scalar ta⟩, ⟨bn, ColumnType.Scalar ta⟩],
           ⟨nm.getD (AddOperation.opName ++ "(" ++ an ++ ", " ++ bn ++ ")"),
            ColumnType.Scalar ta⟩,
           Expression.Scalar ScalarExpression.Add⟩,
          ⟨SubtractOperation.opName,
           [⟨an, ColumnType.Scalar ta⟩, ⟨bn, ColumnType.Scalar ta⟩],
           ⟨nm.getD (SubtractOperation.opName ++ "(" ++ an ++ ", " ++ bn
              ++ ")"),
            ColumnType.Scalar ta⟩,
           Expression.Scalar ScalarExpression.Add⟩,
          ?_, ?_, rfl, rfl, rfl, rfl⟩
  · simp [AddOperation.transform, CastOperation.transform,
      dataTypeIntoColumnType, hne]
  · simp [SubtractOperation.transform, CastOperation.transform,
      dataTypeIntoColumnType, hne]

/-- Witness for C1 at the concrete inputs a of Scalar Int64 and b of
Scalar Int32. -/
theorem add_subtract_mismatched_types_two_nodes_witness :
    ∃ mAdd mSub : Operation,
      AddOperation.transform
        [⟨"a", ColumnType.Scalar DataType.Int64⟩,
         ⟨"b", ColumnType.Scalar DataType.Int32⟩] none none =
        Except.ok
          [⟨CastOperation.opName,
            [⟨"b", ColumnType.Scalar DataType.Int32⟩],
            ⟨"b", ColumnType.Scalar DataType.Int64⟩,
            Expression.Cast⟩, mAdd] ∧
      SubtractOperation.transform
        [⟨"a", ColumnType.Scalar DataType.Int64⟩,
         ⟨"b", ColumnType.Scalar DataType.Int32⟩] none none =
        Except.ok
          [⟨CastOperation.opName,
            [⟨"b", ColumnType.Scalar DataType.Int32⟩],
            ⟨"b", ColumnType.Scalar DataType.Int64⟩,
            Expression.Cast⟩, mSub] ∧
      mAdd.inputs =
        [⟨"a", ColumnType.Scalar DataType.Int64⟩,
         ⟨"b", ColumnType.Scalar DataType.Int64⟩] ∧
      mAdd.output.column_type = ColumnType.Scalar DataType.Int64 ∧
      mSub.inputs =
        [⟨"a", ColumnType.Scalar DataType.Int64⟩,
         ⟨"b", ColumnType.Scalar DataType.Int64⟩] ∧
      mSub.output.column_type = ColumnType.Scalar DataType.Int64 :=
  add_subtract_mismatched_types_two_nodes
    ⟨"a", ColumnType.Scalar DataType.Int64⟩
    ⟨"b", ColumnType.Scalar DataType.Int32⟩
    none none DataType.Int64 DataType.Int32 rfl rfl (by decide)

/-- C2: the Subtract operation is claimed to tag its arithmetic node with
ScalarExpression.Subtract on both the matched-type and mismatched-type
paths. The code does so only on the matched path; on the mismatched path
the node named subtract carries ScalarExpression.Add. This theorem
evaluates both paths at concrete inputs and exhibits the divergence. -/
theorem subtract_mismatched_path_uses_add_tag :
    SubtractOperation.transform
      [⟨"a", ColumnType.Scalar DataType.Int64⟩,
       ⟨"b", ColumnType.Scalar DataType.Int32⟩] none none =
      Except.ok
        [⟨"cast", [⟨"b", ColumnType.Scalar DataType.Int32⟩],
          ⟨"b", ColumnType.Scalar DataType.Int64⟩, Expression.Cast⟩,
         ⟨"subtract",
          [⟨"a", ColumnType.Scalar DataType.Int64⟩,
           ⟨"b", ColumnType.Scalar DataType.Int64⟩],
          ⟨"subtract(a, b)", ColumnType.Scalar DataType.Int64⟩,
          Expression.Scalar ScalarExpression.Add⟩] ∧
    SubtractOperation.transform
      [⟨"a", ColumnType.Scalar DataType.Int64⟩,
       ⟨"b", ColumnType.Scalar DataType.Int64⟩] none none =
      Except.ok
        [⟨"subtract",
          [⟨"a", ColumnType.Scalar DataType.Int64⟩,
           ⟨"b", ColumnType.Scalar DataType.Int64⟩],
          ⟨"subtract(a, b)", ColumnType.Scalar DataType.Int64⟩,
          Expression.Scalar ScalarExpression.Subtract⟩] ∧
    Expression.Scalar ScalarExpression.Add ≠
      Expression.Scalar ScalarExpression.Subtract :=
  ⟨rfl, rfl, by decide⟩

/-- C4 counterexample: with inputs a of Scalar Int64 and b of Scalar
Int32 and no explicit output name, the cast node produced by
AddOperation.transform has its output named b, because the source passes
the second inputs own name to CastOperation explicitly; it is not the
default cast naming claimed by the spec. -/
theorem add_default_cast_name_counterexample :
    AddOperation.transform
      [⟨"a", ColumnType.Scalar DataType.Int64⟩,
       ⟨"b", ColumnType.Scalar DataType.Int32⟩] none none =
      Except.ok
        [⟨"cast", [⟨"b", ColumnType.Scalar DataType.Int32⟩],
          ⟨"b", ColumnType.Scalar DataType.Int64⟩, Expression.Cast⟩,
         ⟨"add",
          [⟨"a", ColumnType.Scalar DataType.Int64⟩,
           ⟨"b", ColumnType.Scalar DataType.Int64⟩],
          ⟨"add(a, b)", ColumnType.Scalar DataType.Int64⟩,
          Expression.Scalar ScalarExpression.Add⟩] ∧
    ("b" : String) ≠ "cast(b as datatype)" :=
  ⟨rfl, by decide⟩

/-- C4 amended: with inputs a of Scalar Int64 and b of Scalar Int32 and
no explicit output name, AddOperation.transform returns a cast node whose
output keeps the second inputs name b, and an arithmetic node whose
output is named add(a, b) with output type Scalar Int64. -/
theorem add_default_names_amended :
    ∃ c m : Operation,
      AddOperation.transform
        [⟨"a", ColumnType.Scalar DataType.Int64⟩,
         ⟨"b", ColumnType.Scalar DataType.Int32⟩] none none =
        Except.ok [c, m] ∧
      c.expression = Expression.Cast ∧
      c.output.name = "b" ∧
      c.output.column_type = ColumnType.Scalar DataType.Int64 ∧
      m.output.name = "add(a, b)" ∧
      m.output.column_type = ColumnType.Scalar DataType.Int64 :=
  ⟨⟨"cast", [⟨"b", ColumnType.Scalar DataType.Int32⟩],
    ⟨"b", ColumnType.Scalar DataType.Int64⟩, Expression.Cast⟩,
   ⟨"add",
    [⟨"a", ColumnType.Scalar DataType.Int64⟩,
     ⟨"b", ColumnType.Scalar DataType.Int64⟩],
    ⟨"add(a, b)", ColumnType.Scalar DataType.Int64⟩,
    Expression.Scalar ScalarExpression.Add⟩,
   rfl, rfl, rfl, rfl, rfl, rfl⟩

/-- C5: CastOperation.transform returns the arity error for every input
list whose length is not one; with one input and no target type it
returns the missing-argument error; with one input and a target type it
returns the shape error whenever the input column is Array typed. -/
theorem cast_error_cases :
    (∀ (inputs : List Column) (nm : Option String) (tt : Option DataType),
        inputs.length ≠ 1 →
        CastOperation.transform inputs nm tt =
          Except.error (ArrowError.ComputeError
            "Cast operation expects 1 input")) ∧
    (∀ (a : Column) (nm : Option String),
        CastOperation.transform [a] nm none =
          Except.error (ArrowError.InvalidArgumentError
            "Cast requires a target output datatype")) ∧
    (∀ (a : Column) (nm : Option String) (t dt : DataType),
        a.column_type = ColumnType.Array dt →
        CastOperation.transform [a] nm (some t) =
          Except.error (ArrowError.ComputeError
            "Cast operation is currently only supported on scalar columns")) := by
  refine ⟨?_, ?_, ?_⟩
  · intro inputs nm tt h
    rcases inputs with _ | ⟨a, _ | ⟨b, rest⟩⟩
    · rfl
    · exact absurd rfl h
    · rfl
  · intro a nm
    rfl
  · intro a nm t dt h
    obtain ⟨an, ac⟩ := a
    change ac = ColumnType.Array dt at h
    subst h
    rfl

/-- Witness for C5 at concrete inputs: an empty input list, a single
scalar input without a target type, and a single array input with a
target type. -/
theorem cast_error_cases_witness :
    CastOperation.transform [] none none =
      Except.error (ArrowError.ComputeError
        "Cast operation expects 1 input") ∧
    CastOperation.transform
      [⟨"a", ColumnType.Scalar DataType.Int64⟩] none none =
      Except.error (ArrowError.InvalidArgumentError
        "Cast requires a target output datatype") ∧
    CastOperation.transform
      [⟨"a", ColumnType.Array DataType.Int64⟩] none (some DataType.Int32) =
      Except.error (ArrowError.ComputeError
        "Cast operation is currently only supported on scalar columns") :=
  ⟨cast_error_cases.1 [] none none (by decide),
   cast_error_cases.2.1 ⟨"a", ColumnType.Scalar DataType.Int64⟩ none,
   cast_error_cases.2.2 ⟨"a", ColumnType.Array DataType.Int64⟩ none
     DataType.Int32 DataType.Int64 rfl⟩

/-- C6: AddOperation.transform and SubtractOperation.transform return an
arity error naming the operation for every input list whose length is
not two, and for every two-element input list containing an Array typed
column in either position they return exactly the shape error, so never
a type-mismatch error. -/
theorem add_subtract_arity_and_shape_errors :
    (∀ (inputs : List Column) (nm : Option String) (tt : Option DataType),
        inputs.length ≠ 2 →
        AddOperation.transform inputs nm tt =
          Except.error (ArrowError.ComputeError
            "Add operation expects 2 inputs") ∧
        SubtractOperation.transform inputs nm tt =
          Except.error (ArrowError.ComputeError
            "Subtract operation expects 2 inputs")) ∧
    (∀ (a b : Column) (nm : Option String) (tt : Option DataType),
        (a.column_type.isArray = true ∨ b.column_type.isArray = true) →
        AddOperation.transform [a, b] nm tt =
          Except.error (ArrowError.ComputeError
            "Add operation only works on scalar columns") ∧
        SubtractOperation.transform [a, b] nm tt =
          Except.error (ArrowError.ComputeError
            "Subtract operation only works on scalar columns")) := by
  refine ⟨?_, ?_⟩
  · intro inputs nm tt h
    rcases inputs with _ | ⟨a, _ | ⟨b, _ | ⟨c, rest⟩⟩⟩
    · exact ⟨rfl, rfl⟩
    · exact ⟨rfl, rfl⟩
    · exact absurd rfl h
    · exact ⟨rfl, rfl⟩
  · intro a b nm tt h
    obtain ⟨an, ac⟩ := a
    obtain ⟨bn, bc⟩ := b
    cases ac <;> cases bc <;>
      first
        | exact ⟨rfl, rfl⟩
        | simp [ColumnType.isArray] at h

/-- Witness for C6 at concrete inputs: an empty input list, and a pair
whose first column is Array typed. -/
theorem add_subtract_arity_and_shape_errors_witness :
    (AddOperation.transform [] none none =
        Except.error (ArrowError.ComputeError
          "Add operation expects 2 inputs") ∧
      SubtractOperation.transform [] none none =
        Except.error (ArrowError.ComputeError
          "Subtract operation expects 2 inputs")) ∧
    (AddOperation.transform
        [⟨"x", ColumnType.Array DataType.Int64⟩,
         ⟨"y", ColumnType.Scalar DataType.Int64⟩] none none =
        Except.error (ArrowError.ComputeError
          "Add operation only works on scalar columns") ∧
      SubtractOperation.transform
        [⟨"x", ColumnType.Array DataType.Int64⟩,
         ⟨"y", ColumnType.Scalar DataType.Int64⟩] none none =
        Except.error (ArrowError.ComputeError
          "Subtract operation only works on scalar columns")) :=
  ⟨add_subtract_arity_and_shape_errors.1 [] none none (by decide),
   add_subtract_arity_and_shape_errors.2
     ⟨"x", ColumnType.Array DataType.Int64⟩
     ⟨"y", ColumnType.Scalar DataType.Int64⟩ none none (Or.inl rfl)⟩

/-- C7 counterexample: resolving a Json source does not return an Err
value as claimed; the source hits unimplemented!, which panics, so the
call yields no Err the caller could inspect. -/
theorem get_dataset_json_panics_not_err :
    Reader.get_dataset noReaders ⟨DataSourceType.Json "data.json"⟩ =
      EvalResult.panic "JSON data source evaluation not yet implemented" ∧
    (Reader.get_dataset noReaders
      ⟨DataSourceType.Json "data.json"⟩).isErr = false :=
  ⟨rfl, rfl⟩

/-- C7 amended: for every environment of external readers, resolving a
Json source, or a Sql source with the MySql or MsSql dialect, fails fast
by panicking with an explicit not-yet-implemented message, and in
particular never returns Ok with any Dataset, empty or otherwise; the
failure is a panic rather than a returned Err value. -/
theorem get_dataset_unimplemented_backends_panic
    (env : ExternalReaders) (p t cs : String) :
    Reader.get_dataset env ⟨DataSourceType.Json p⟩ =
      EvalResult.panic "JSON data source evaluation not yet implemented" ∧
    Reader.get_dataset env
        ⟨DataSourceType.Sql t ⟨SqlDatabase.MySql, cs⟩⟩ =
      EvalResult.panic "MySQL data source not yet implemented" ∧
    Reader.get_dataset env
        ⟨DataSourceType.Sql t ⟨SqlDatabase.MsSql, cs⟩⟩ =
      EvalResult.panic "MSSQL data source not yet implemented" ∧
    (Reader.get_dataset env ⟨DataSourceType.Json p⟩).isOk = false ∧
    (Reader.get_dataset env
      ⟨DataSourceType.Sql t ⟨SqlDatabase.MySql, cs⟩⟩).isOk = false ∧
    (Reader.get_dataset env
      ⟨DataSourceType.Sql t ⟨SqlDatabase.MsSql, cs⟩⟩).isOk = false :=
  ⟨rfl, rfl, rfl, rfl, rfl, rfl⟩

/-- C8: the delimited-file source reports projection and limit pushdown
as supported and filtering and sorting as unsupported, and every filter
call on it fails explicitly by panicking with the todo message, so it
never returns success while discarding the predicate. -/
theorem csv_source_capabilities_and_filter
    (s : CsvDataSource) (f : BooleanFilter) :
    s.supports_projection = true ∧
    s.supports_limit = true ∧
    s.supports_filtering = false ∧
    s.supports_sorting = false ∧
    CsvDataSource.filter s f = EvalResult.panic "not yet implemented" ∧
    (CsvDataSource.filter s f).isOk = false :=
  ⟨rfl, rfl, rfl, rfl, rfl, rfl⟩

/-- C9: the optional target-type argument of the arithmetic transforms
has no effect on the result: for every input list, output name and any
two target-type values, AddOperation.transform and
SubtractOperation.transform return identical results. -/
theorem arithmetic_target_type_hint_ignored
    (inputs : List Column) (nm : Option String) (t1 t2 : Option DataType) :
    AddOperation.transform inputs nm t1 =
      AddOperation.transform inputs nm t2 ∧
    SubtractOperation.transform inputs nm t1 =
      SubtractOperation.transform inputs nm t2 :=
  ⟨rfl, rfl⟩

/-- C10: the error checks of CastOperation.transform have a fixed
precedence. The arity error is returned for every input list whose
length is not one, whatever the target type or the column shapes, and
the missing-argument error is returned for every single input without a
target type, even when that input is Array typed. -/
theorem cast_error_precedence :
    (∀ (inputs : List Column) (nm : Option String) (tt : Option DataType),
        inputs.length ≠ 1 →
        CastOperation.transform inputs nm tt =
          Except.error (ArrowError.ComputeError
            "Cast operation expects 1 input")) ∧
    (∀ (a : Column) (nm : Option String),
        CastOperation.transform [a] nm none =
          Except.error (ArrowError.InvalidArgumentError
            "Cast requires a target output datatype")) := by
  refine ⟨?_, ?_⟩
  · intro inputs nm tt h
    rcases inputs with _ | ⟨a, _ | ⟨b, rest⟩⟩
    · rfl
    · exact absurd rfl h
    · rfl
  · intro a nm
    rfl

/-- Witness for C10 at concrete inputs that trigger several error
conditions at once: two Array typed columns with no target type still
give the arity error, and a single Array typed column with no target
type gives the missing-argument error rather than the shape error. -/
theorem cast_error_precedence_witness :
    CastOperation.transform
      [⟨"x", ColumnType.Array DataType.Int64⟩,
       ⟨"y", ColumnType.Array DataType.Int64⟩] none none =
      Except.error (ArrowError.ComputeError
        "Cast operation expects 1 input") ∧
    CastOperation.transform
      [⟨"x", ColumnType.Array DataType.Int64⟩] none none =
      Except.error (ArrowError.InvalidArgumentError
        "Cast requires a target output datatype") :=
  ⟨cast_error_precedence.1
     [⟨"x", ColumnType.Array DataType.Int64⟩,
      ⟨"y", ColumnType.Array DataType.Int64⟩] none none (by decide),
   cast_error_precedence.2 ⟨"x", ColumnType.Array DataType.Int64⟩ none⟩

end RustDataframe
